import Mathlib

/-!
Shallow embedding of `RandomProbePointSet`
(`src/Movement/BedProbing/RandomProbePointSet.cpp`): a bounded-capacity
calibration-point store and surface-fitting engine.  Machine `float`
arithmetic is modelled by exact rational arithmetic `ℚ`; the square root
taken when reporting the height deviation is modelled by `Real.sqrt`.
-/

set_option maxHeartbeats 1000000

/-- Modelled from the spec: the fixed capacity `MaxProbePoints` of the probe
point store.  The constant is declared in the header
`RandomProbePointSet.h`, which is not among the sources; the spec states
only that the capacity is a fixed constant, so a representative concrete
value is used. -/
def MaxProbePoints : Nat := 32

/-- Modelled from the spec: the per-point status flags `xySet`, `zSet`,
`xyCorrected`, `probeError` (declared in the missing header as an enum of
single-bit mask values).  Each independent bit is represented as a `Bool`
field; `|= bit` sets the field, `&= ~bit` clears it. -/
structure PointStatus where
  xySet : Bool
  zSet : Bool
  xyCorrected : Bool
  probeError : Bool

/-- The all-clear status value `unset`. -/
def PointStatus.unset : PointStatus := ⟨false, false, false, false⟩

/-- State of a `RandomProbePointSet` object.  The four fixed-size C arrays
are modelled as total functions on `Nat`; indices `≥ MaxProbePoints` are
out of the array's range (out-of-range access is undefined behaviour in the
source and never exercised by the embedded operations' loops). -/
structure RandomProbePointSet where
  xBedProbePoints : Nat → ℚ
  yBedProbePoints : Nat → ℚ
  zBedProbePoints : Nat → ℚ
  probePointSet : Nat → PointStatus
  numBedCompensationPoints : Nat
  aX : ℚ
  aY : ℚ
  aC : ℚ
  xRectangle : ℚ
  yRectangle : ℚ

/-- The constructor `RandomProbePointSet()`: sets
`numBedCompensationPoints` to 0 and, for every point, the status to
`unset` and the stored Z value to 0.  The X/Y coordinate arrays and the
fit coefficients are left uninitialised by the constructor, so their
initial (indeterminate) contents are parameters here. -/
def RandomProbePointSet.init (xs ys : Nat → ℚ) (aX0 aY0 aC0 xR0 yR0 : ℚ) :
    RandomProbePointSet where
  xBedProbePoints := xs
  yBedProbePoints := ys
  zBedProbePoints := fun _ => 0
  probePointSet := fun _ => PointStatus.unset
  numBedCompensationPoints := 0
  aX := aX0
  aY := aY0
  aC := aC0
  xRectangle := xR0
  yRectangle := yR0

/-- `SetXYBedProbePoint(index, x, y)`: record the X and Y coordinates of a
probe point and or-in the `xySet` flag. -/
def RandomProbePointSet.SetXYBedProbePoint (s : RandomProbePointSet)
    (index : Nat) (x y : ℚ) : RandomProbePointSet :=
  { s with
    xBedProbePoints := fun j => if j = index then x else s.xBedProbePoints j
    yBedProbePoints := fun j => if j = index then y else s.yBedProbePoints j
    probePointSet := fun j =>
      if j = index then { s.probePointSet index with xySet := true }
      else s.probePointSet j }

/-- `SetZBedProbePoint(index, z, wasXyCorrected, wasError)`: record the Z
coordinate, or-in `zSet`, and set or clear `xyCorrected` and `probeError`
according to the two booleans. -/
def RandomProbePointSet.SetZBedProbePoint (s : RandomProbePointSet)
    (index : Nat) (z : ℚ) (wasXyCorrected wasError : Bool) :
    RandomProbePointSet :=
  { s with
    zBedProbePoints := fun j => if j = index then z else s.zBedProbePoints j
    probePointSet := fun j =>
      if j = index then
        { xySet := (s.probePointSet index).xySet
          zSet := true
          xyCorrected := wasXyCorrected
          probeError := wasError }
      else s.probePointSet j }

/-- The loop condition of `NumberOfProbePoints`: record `i` has both
`xySet` and `zSet` (`(probePointSet[i] & (xySet | zSet)) == (xySet | zSet)`). -/
def RandomProbePointSet.fullySet (s : RandomProbePointSet) (i : Nat) : Bool :=
  (s.probePointSet i).xySet && (s.probePointSet i).zSet

/-- The loop of `NumberOfProbePoints`, index `i` with `fuel` iterations
remaining (`fuel = MaxProbePoints - i`): return `i` at the first record
that is not fully set, or `MaxProbePoints` if the loop runs out. -/
def RandomProbePointSet.countFull (s : RandomProbePointSet) :
    Nat → Nat → Nat
  | i, 0 => i
  | i, fuel + 1 => if s.fullySet i then s.countFull (i + 1) fuel else i

/-- `NumberOfProbePoints()`: scan from index 0 over all `MaxProbePoints`
records. -/
def RandomProbePointSet.NumberOfProbePoints (s : RandomProbePointSet) : Nat :=
  s.countFull 0 MaxProbePoints

/-- `ClearProbeHeights()`: clear the `zSet` flag on every record. -/
def RandomProbePointSet.ClearProbeHeights (s : RandomProbePointSet) :
    RandomProbePointSet :=
  { s with
    probePointSet := fun i =>
      if i < MaxProbePoints then { s.probePointSet i with zSet := false }
      else s.probePointSet i }

/-- `GoodProbePointOrdering(numPoints)`: check that the probe points are in
the required clockwise order. -/
def RandomProbePointSet.GoodProbePointOrdering (s : RandomProbePointSet)
    (numPoints : Nat) : Bool :=
  if 2 ≤ numPoints ∧ s.yBedProbePoints 1 ≤ s.yBedProbePoints 0 then false
  else if 3 ≤ numPoints ∧ s.xBedProbePoints 2 ≤ s.xBedProbePoints 1 then false
  else if 4 ≤ numPoints ∧ s.yBedProbePoints 3 ≥ s.yBedProbePoints 2 then false
  else if 4 ≤ numPoints ∧ s.xBedProbePoints 0 ≥ s.xBedProbePoints 3 then false
  else true

/-- `GoodProbePoints(numPoints)`: every one of the first `numPoints`
records has both `xySet` and `zSet` and does not have `probeError`. -/
def RandomProbePointSet.GoodProbePoints (s : RandomProbePointSet)
    (numPoints : Nat) : Bool :=
  decide (∀ i : Fin numPoints,
    (s.probePointSet i.val).xySet ∧ (s.probePointSet i.val).zSet ∧
      ¬(s.probePointSet i.val).probeError)

/-- `SetProbedBedEquation(numPoints, reply)`: set the bed transform.  The
result pairs the returned error flag (`true` on failure) with the state
after the call; the text written to `reply` is not modelled. -/
def RandomProbePointSet.SetProbedBedEquation (s : RandomProbePointSet)
    (numPoints : Nat) : Bool × RandomProbePointSet :=
  if s.GoodProbePointOrdering numPoints then
    if numPoints = 3 then
      let x10 := s.xBedProbePoints 1 - s.xBedProbePoints 0
      let y10 := s.yBedProbePoints 1 - s.yBedProbePoints 0
      let z10 := s.zBedProbePoints 1 - s.zBedProbePoints 0
      let x20 := s.xBedProbePoints 2 - s.xBedProbePoints 0
      let y20 := s.yBedProbePoints 2 - s.yBedProbePoints 0
      let z20 := s.zBedProbePoints 2 - s.zBedProbePoints 0
      let a := y10 * z20 - z10 * y20
      let b := z10 * x20 - x10 * z20
      let c := x10 * y20 - y10 * x20
      let d := -(s.xBedProbePoints 1 * a + s.yBedProbePoints 1 * b +
        s.zBedProbePoints 1 * c)
      (false,
        { s with
          aX := -a / c
          aY := -b / c
          aC := -d / c
          numBedCompensationPoints := numPoints })
    else if numPoints = 4 then
      (false,
        { s with
          xRectangle := 1 / (s.xBedProbePoints 3 - s.xBedProbePoints 0)
          yRectangle := 1 / (s.yBedProbePoints 1 - s.yBedProbePoints 0)
          numBedCompensationPoints := numPoints })
    else (true, s)
  else (true, s)

/-- `SecondDegreeTransformZ(x, y)`: bilinear blend of the four corner Z
values after normalising `x` and `y` by the stored rectangle scales. -/
def RandomProbePointSet.SecondDegreeTransformZ (s : RandomProbePointSet)
    (x y : ℚ) : ℚ :=
  let x1 := (x - s.xBedProbePoints 0) * s.xRectangle
  let y1 := (y - s.yBedProbePoints 0) * s.yRectangle
  (1 - x1) * (1 - y1) * s.zBedProbePoints 0 +
    x1 * (1 - y1) * s.zBedProbePoints 3 +
    (1 - x1) * y1 * s.zBedProbePoints 1 +
    x1 * y1 * s.zBedProbePoints 2

/-- `GetInterpolatedHeightError(x, y)`: evaluate the fitted model (0 when
`numBedCompensationPoints` is neither 3 nor 4, the default branch). -/
def RandomProbePointSet.GetInterpolatedHeightError (s : RandomProbePointSet)
    (x y : ℚ) : ℚ :=
  if s.numBedCompensationPoints = 3 then s.aX * x + s.aY * y + s.aC
  else if s.numBedCompensationPoints = 4 then s.SecondDegreeTransformZ x y
  else 0

/-- A record counts as a valid measurement in `ReportProbeHeights`: it is
fully set and does not carry `probeError` (the two earlier branches of the
loop skip it otherwise). -/
def RandomProbePointSet.validPoint (s : RandomProbePointSet) (i : Nat) : Bool :=
  (s.probePointSet i).xySet && (s.probePointSet i).zSet &&
    !(s.probePointSet i).probeError

/-- The `sum` accumulator of `ReportProbeHeights` after the first `n` loop
iterations: the sum of the Z values of the valid records among the first
`n`. -/
def RandomProbePointSet.reportSum (s : RandomProbePointSet) : Nat → ℚ
  | 0 => 0
  | n + 1 =>
      s.reportSum n + (if s.validPoint n then s.zBedProbePoints n else 0)

/-- The `sumOfSquares` accumulator of `ReportProbeHeights` after the first
`n` loop iterations (`fsquare` is squaring). -/
def RandomProbePointSet.reportSumOfSquares (s : RandomProbePointSet) :
    Nat → ℚ
  | 0 => 0
  | n + 1 =>
      s.reportSumOfSquares n +
        (if s.validPoint n then s.zBedProbePoints n * s.zBedProbePoints n
         else 0)

/-- The mean appended by `ReportProbeHeights(numPoints)`:
`sum / numPoints`. -/
def RandomProbePointSet.reportedMean (s : RandomProbePointSet)
    (numPoints : Nat) : ℚ :=
  s.reportSum numPoints / numPoints

/-- The radicand of the deviation appended by
`ReportProbeHeights(numPoints)`:
`max(sumOfSquares/numPoints - fsquare(mean), 0)`; the deviation itself is
its square root. -/
def RandomProbePointSet.reportedRadicand (s : RandomProbePointSet)
    (numPoints : Nat) : ℚ :=
  max (s.reportSumOfSquares numPoints / numPoints -
    s.reportedMean numPoints * s.reportedMean numPoints) 0

/-- Spec-side: the number of valid records among the first `n`. -/
def RandomProbePointSet.validCount (s : RandomProbePointSet) : Nat → Nat
  | 0 => 0
  | n + 1 => s.validCount n + (if s.validPoint n then 1 else 0)

/-- Spec-side: the mean of the valid Z values among the first `n` records
(sum of the valid Z values divided by how many there are). -/
def RandomProbePointSet.validZMean (s : RandomProbePointSet) (n : Nat) : ℚ :=
  s.reportSum n / (s.validCount n : ℚ)

/-- Spec-side: the sum of squared deviations from `m` of the valid Z values
among the first `n` records; dividing it by `validCount` gives the
population variance. -/
def RandomProbePointSet.validZSqDevSum (s : RandomProbePointSet) (m : ℚ) :
    Nat → ℚ
  | 0 => 0
  | n + 1 =>
      s.validZSqDevSum m n +
        (if s.validPoint n then
          (s.zBedProbePoints n - m) * (s.zBedProbePoints n - m)
         else 0)

/-- Spec-side: the length of the longest initial segment of records in
which every record is fully set (`xySet` and `zSet`). -/
def RandomProbePointSet.fullRecordCount (s : RandomProbePointSet) : Nat :=
  ((List.range MaxProbePoints).takeWhile s.fullySet).length

/-- States of the store reachable from a freshly constructed object through
the mutating operations. -/
inductive Reachable : RandomProbePointSet → Prop where
  | init (xs ys : Nat → ℚ) (aX0 aY0 aC0 xR0 yR0 : ℚ) :
      Reachable (RandomProbePointSet.init xs ys aX0 aY0 aC0 xR0 yR0)
  | setXY (s : RandomProbePointSet) (i : Nat) (x y : ℚ)
      (h : Reachable s) : Reachable (s.SetXYBedProbePoint i x y)
  | setZ (s : RandomProbePointSet) (i : Nat) (z : ℚ) (c e : Bool)
      (h : Reachable s) : Reachable (s.SetZBedProbePoint i z c e)
  | clear (s : RandomProbePointSet) (h : Reachable s) :
      Reachable s.ClearProbeHeights
  | fit (s : RandomProbePointSet) (n : Nat) (h : Reachable s) :
      Reachable (s.SetProbedBedEquation n).snd

/-! ### Concrete stores used by the example claims -/

/-- A freshly constructed store (all indeterminate fields zero). -/
def freshStore : RandomProbePointSet :=
  RandomProbePointSet.init (fun _ => 0) (fun _ => 0) 0 0 0 0 0

/-- Points 0, 1, 2 recorded as (0,0,0), (0,1,2), (1,1,4). -/
def planeStore : RandomProbePointSet :=
  (((((freshStore.SetXYBedProbePoint 0 0 0).SetXYBedProbePoint 1 0 1
    ).SetXYBedProbePoint 2 1 1).SetZBedProbePoint 0 0 false false
    ).SetZBedProbePoint 1 2 false false).SetZBedProbePoint 2 4 false false

/-- Points 0..3 recorded as the corners (0,0,0), (0,1,1), (1,1,2), (1,0,1),
clockwise from low-X/low-Y. -/
def cornerStore : RandomProbePointSet :=
  (((((((freshStore.SetXYBedProbePoint 0 0 0).SetXYBedProbePoint 1 0 1
    ).SetXYBedProbePoint 2 1 1).SetXYBedProbePoint 3 1 0
    ).SetZBedProbePoint 0 0 false false).SetZBedProbePoint 1 1 false false
    ).SetZBedProbePoint 2 2 false false).SetZBedProbePoint 3 1 false false

/-- C1: with points 0, 1, 2 recorded as (0,0,0), (0,1,2), (1,1,4) via
`SetXYBedProbePoint` and `SetZBedProbePoint`, `SetProbedBedEquation 3`
succeeds (returns `false`) and the subsequent
`GetInterpolatedHeightError 0 0` is exactly 0. -/
theorem plane_fit_example :
    (planeStore.SetProbedBedEquation 3).fst = false ∧
      (planeStore.SetProbedBedEquation 3).snd.GetInterpolatedHeightError 0 0
        = 0 := by
  constructor <;>
    norm_num [planeStore, freshStore, RandomProbePointSet.init,
      RandomProbePointSet.SetXYBedProbePoint,
      RandomProbePointSet.SetZBedProbePoint,
      RandomProbePointSet.SetProbedBedEquation,
      RandomProbePointSet.GoodProbePointOrdering,
      RandomProbePointSet.GetInterpolatedHeightError,
      RandomProbePointSet.SecondDegreeTransformZ]

/-- C2: with points 0..3 recorded as the corners (0,0,0), (0,1,1), (1,1,2),
(1,0,1), `SetProbedBedEquation 4` succeeds; afterwards
`GetInterpolatedHeightError (1/2) (1/2)` equals 1, the average of the four
corner Z values, and the height error at each corner (x, y) is exactly
that corner's Z value. -/
theorem bilinear_fit_example :
    (cornerStore.SetProbedBedEquation 4).fst = false ∧
      (cornerStore.SetProbedBedEquation 4).snd.GetInterpolatedHeightError
        (1/2) (1/2) = (0 + 1 + 2 + 1) / 4 ∧
      (cornerStore.SetProbedBedEquation 4).snd.GetInterpolatedHeightError 0 0
        = 0 ∧
      (cornerStore.SetProbedBedEquation 4).snd.GetInterpolatedHeightError 0 1
        = 1 ∧
      (cornerStore.SetProbedBedEquation 4).snd.GetInterpolatedHeightError 1 1
        = 2 ∧
      (cornerStore.SetProbedBedEquation 4).snd.GetInterpolatedHeightError 1 0
        = 1 := by
  refine ⟨?_, ?_, ?_, ?_, ?_, ?_⟩ <;>
    norm_num [cornerStore, freshStore, RandomProbePointSet.init,
      RandomProbePointSet.SetXYBedProbePoint,
      RandomProbePointSet.SetZBedProbePoint,
      RandomProbePointSet.SetProbedBedEquation,
      RandomProbePointSet.GoodProbePointOrdering,
      RandomProbePointSet.GetInterpolatedHeightError,
      RandomProbePointSet.SecondDegreeTransformZ]

/-! ### Failure of the fit leaves the state unchanged -/

/-- C3: whenever `SetProbedBedEquation numPoints` fails (returns `true`),
the resulting state — including `numBedCompensationPoints`, the
coefficients `aX`, `aY`, `aC`, `xRectangle`, `yRectangle`, and all
probe-point records — is the state before the call. -/
theorem setProbedBedEquation_fail_frame (s : RandomProbePointSet) (n : Nat)
    (h : (s.SetProbedBedEquation n).fst = true) :
    (s.SetProbedBedEquation n).snd = s := by
  by_cases hg : s.GoodProbePointOrdering n = true
  · by_cases h3 : n = 3
    · subst h3
      exfalso
      simp [RandomProbePointSet.SetProbedBedEquation, hg] at h
    · by_cases h4 : n = 4
      · subst h4
        exfalso
        simp [RandomProbePointSet.SetProbedBedEquation, hg] at h
      · simp [RandomProbePointSet.SetProbedBedEquation, hg, h3, h4]
  · simp [RandomProbePointSet.SetProbedBedEquation, hg]

/-- Witness for C3: on a fresh store, `SetProbedBedEquation 5` fails and
the state is unchanged. -/
theorem setProbedBedEquation_fail_frame_witness :
    (freshStore.SetProbedBedEquation 5).fst = true ∧
      (freshStore.SetProbedBedEquation 5).snd = freshStore := by
  have h : (freshStore.SetProbedBedEquation 5).fst = true := by
    norm_num [freshStore, RandomProbePointSet.init,
      RandomProbePointSet.SetProbedBedEquation,
      RandomProbePointSet.GoodProbePointOrdering]
  exact ⟨h, setProbedBedEquation_fail_frame freshStore 5 h⟩

/-- C10: `SetProbedBedEquation numPoints` returns `true` (error) exactly
when the ordering check rejects the points or `numPoints` is neither 3 nor
4, and returns `false` (success) otherwise. -/
theorem setProbedBedEquation_error_polarity (s : RandomProbePointSet)
    (n : Nat) :
    (s.SetProbedBedEquation n).fst = true ↔
      (¬s.GoodProbePointOrdering n = true ∨ (n ≠ 3 ∧ n ≠ 4)) := by
  by_cases hg : s.GoodProbePointOrdering n = true
  · by_cases h3 : n = 3
    · subst h3
      simp [RandomProbePointSet.SetProbedBedEquation, hg]
    · by_cases h4 : n = 4
      · subst h4
        simp [RandomProbePointSet.SetProbedBedEquation, hg, h3]
      · simp [RandomProbePointSet.SetProbedBedEquation, hg, h3, h4]
  · simp [RandomProbePointSet.SetProbedBedEquation, hg]

/-- C4: `GoodProbePointOrdering numPoints` holds exactly when every
applicable ordering rule holds: `y[0] < y[1]` when `numPoints ≥ 2`,
`x[1] < x[2]` when `numPoints ≥ 3`, and `y[3] < y[2]` and `x[0] < x[3]`
when `numPoints ≥ 4` (so it always holds when `numPoints ≤ 1`). -/
theorem goodProbePointOrdering_spec (s : RandomProbePointSet) (n : Nat) :
    s.GoodProbePointOrdering n = true ↔
      ((2 ≤ n → s.yBedProbePoints 0 < s.yBedProbePoints 1) ∧
        (3 ≤ n → s.xBedProbePoints 1 < s.xBedProbePoints 2) ∧
        (4 ≤ n → s.yBedProbePoints 3 < s.yBedProbePoints 2) ∧
        (4 ≤ n → s.xBedProbePoints 0 < s.xBedProbePoints 3)) := by
  unfold RandomProbePointSet.GoodProbePointOrdering
  split_ifs with h1 h2 h3 h4
  · simp only [Bool.false_eq_true, false_iff]
    intro hr
    exact absurd (hr.1 h1.1) (not_lt.mpr h1.2)
  · simp only [Bool.false_eq_true, false_iff]
    intro hr
    exact absurd (hr.2.1 h2.1) (not_lt.mpr h2.2)
  · simp only [Bool.false_eq_true, false_iff]
    intro hr
    exact absurd (hr.2.2.1 h3.1) (not_lt.mpr h3.2)
  · simp only [Bool.false_eq_true, false_iff]
    intro hr
    exact absurd (hr.2.2.2 h4.1) (not_lt.mpr h4.2)
  · push_neg at h1 h2 h3 h4
    exact ⟨fun _ => ⟨h1, h2, h3, h4⟩, fun _ => rfl⟩

/-! ### Recording a Z measurement -/

/-- C7: after `SetZBedProbePoint index z wasXyCorrected wasError` on a
valid index, record `index` stores `z`, has `zSet`, has `xyCorrected`
exactly when `wasXyCorrected`, and has `probeError` exactly when
`wasError`, regardless of the record's prior flags. -/
theorem setZBedProbePoint_spec (s : RandomProbePointSet)
    (i : Fin MaxProbePoints) (z : ℚ) (wasXyCorrected wasError : Bool) :
    (s.SetZBedProbePoint i.val z wasXyCorrected wasError).zBedProbePoints
        i.val = z ∧
      ((s.SetZBedProbePoint i.val z wasXyCorrected
        wasError).probePointSet i.val).zSet = true ∧
      ((s.SetZBedProbePoint i.val z wasXyCorrected
        wasError).probePointSet i.val).xyCorrected = wasXyCorrected ∧
      ((s.SetZBedProbePoint i.val z wasXyCorrected
        wasError).probePointSet i.val).probeError = wasError := by
  simp [RandomProbePointSet.SetZBedProbePoint]

/-! ### Clearing the probe heights -/

/-- If the first record is not fully set, the scan returns 0 at once. -/
theorem countFull_stop (s : RandomProbePointSet) (i fuel : Nat)
    (h : s.fullySet i = false) : s.countFull i (fuel + 1) = i := by
  simp [RandomProbePointSet.countFull, h]

/-- C8: `ClearProbeHeights` clears `zSet` on every record and changes
nothing else (`xySet`, `xyCorrected`, `probeError`, the coordinate and
height arrays, and the fitted model survive), and immediately afterwards
`NumberOfProbePoints` returns 0. -/
theorem clearProbeHeights_spec (s : RandomProbePointSet) :
    (∀ i : Fin MaxProbePoints,
      (s.ClearProbeHeights.probePointSet i.val).zSet = false) ∧
      (∀ i : Nat, (s.ClearProbeHeights.probePointSet i).xySet =
        (s.probePointSet i).xySet) ∧
      (∀ i : Nat, (s.ClearProbeHeights.probePointSet i).xyCorrected =
        (s.probePointSet i).xyCorrected) ∧
      (∀ i : Nat, (s.ClearProbeHeights.probePointSet i).probeError =
        (s.probePointSet i).probeError) ∧
      s.ClearProbeHeights.xBedProbePoints = s.xBedProbePoints ∧
      s.ClearProbeHeights.yBedProbePoints = s.yBedProbePoints ∧
      s.ClearProbeHeights.zBedProbePoints = s.zBedProbePoints ∧
      s.ClearProbeHeights.numBedCompensationPoints =
        s.numBedCompensationPoints ∧
      s.ClearProbeHeights.aX = s.aX ∧ s.ClearProbeHeights.aY = s.aY ∧
      s.ClearProbeHeights.aC = s.aC ∧
      s.ClearProbeHeights.xRectangle = s.xRectangle ∧
      s.ClearProbeHeights.yRectangle = s.yRectangle ∧
      s.ClearProbeHeights.NumberOfProbePoints = 0 := by
  refine ⟨fun i => ?_, fun i => ?_, fun i => ?_, fun i => ?_, rfl, rfl, rfl,
    rfl, rfl, rfl, rfl, rfl, rfl, ?_⟩
  · simp [RandomProbePointSet.ClearProbeHeights, i.isLt]
  · by_cases h : i < MaxProbePoints <;>
      simp [RandomProbePointSet.ClearProbeHeights, h]
  · by_cases h : i < MaxProbePoints <;>
      simp [RandomProbePointSet.ClearProbeHeights, h]
  · by_cases h : i < MaxProbePoints <;>
      simp [RandomProbePointSet.ClearProbeHeights, h]
  · have h0 : s.ClearProbeHeights.fullySet 0 = false := by
      simp [RandomProbePointSet.fullySet,
        RandomProbePointSet.ClearProbeHeights, MaxProbePoints]
    exact countFull_stop s.ClearProbeHeights 0 31 h0

/-! ### NumberOfProbePoints returns the longest fully-set initial run -/

/-- Unfolding step of the `NumberOfProbePoints` scan. -/
theorem countFull_step (s : RandomProbePointSet) (i m : Nat) :
    s.countFull i (m + 1) =
      if s.fullySet i then s.countFull (i + 1) m else i := rfl

/-- The scan starting at `i` with `fuel` slots left lands `i` plus the
length of the run of fully-set records starting at `i`. -/
theorem countFull_eq_takeWhile (s : RandomProbePointSet) :
    ∀ fuel i : Nat,
      s.countFull i fuel =
        i + ((List.range' i fuel).takeWhile s.fullySet).length := by
  intro fuel
  induction fuel with
  | zero => intro i; simp [RandomProbePointSet.countFull]
  | succ m ih =>
      intro i
      rw [List.range'_succ, countFull_step]
      by_cases h : s.fullySet i = true
      · rw [List.takeWhile_cons_of_pos h, if_pos h, List.length_cons,
          ih (i + 1)]
        omega
      · rw [List.takeWhile_cons_of_neg (by simp [h]), if_neg h]
        simp

/-- C6: `NumberOfProbePoints` returns the length of the longest initial
segment of records in which every record has both `xySet` and `zSet`
(which is `MaxProbePoints` when all records are fully set). -/
theorem numberOfProbePoints_eq_fullRecordCount (s : RandomProbePointSet) :
    s.NumberOfProbePoints = s.fullRecordCount := by
  unfold RandomProbePointSet.NumberOfProbePoints
    RandomProbePointSet.fullRecordCount
  rw [List.range_eq_range', countFull_eq_takeWhile s MaxProbePoints 0]
  omega

/-! ### The statistics appended by ReportProbeHeights -/

/-- When every one of the first `n` records is valid, the valid-record
count is `n`. -/
theorem validCount_all (s : RandomProbePointSet) :
    ∀ n, (∀ i, i < n → s.validPoint i = true) → s.validCount n = n := by
  intro n
  induction n with
  | zero => intro _; rfl
  | succ m ih =>
      intro h
      simp [RandomProbePointSet.validCount, h m (by omega),
        ih fun i hi => h i (by omega)]

/-- Expansion of the sum of squared deviations from `m`. -/
theorem validZSqDevSum_expand (s : RandomProbePointSet) (m : ℚ) :
    ∀ n, s.validZSqDevSum m n =
      s.reportSumOfSquares n - 2 * m * s.reportSum n +
        (s.validCount n : ℚ) * (m * m) := by
  intro n
  induction n with
  | zero =>
      simp [RandomProbePointSet.validZSqDevSum,
        RandomProbePointSet.reportSumOfSquares,
        RandomProbePointSet.reportSum, RandomProbePointSet.validCount]
  | succ k ih =>
      by_cases h : s.validPoint k = true <;>
        · simp only [RandomProbePointSet.validZSqDevSum,
            RandomProbePointSet.reportSumOfSquares,
            RandomProbePointSet.reportSum, RandomProbePointSet.validCount,
            h, if_true, if_false, ih]
          push_cast
          ring

/-- The sum of squared deviations is nonnegative. -/
theorem validZSqDevSum_nonneg (s : RandomProbePointSet) (m : ℚ) :
    ∀ n, 0 ≤ s.validZSqDevSum m n := by
  intro n
  induction n with
  | zero => simp [RandomProbePointSet.validZSqDevSum]
  | succ k ih =>
      have hstep : (0 : ℚ) ≤
          (if s.validPoint k then
            (s.zBedProbePoints k - m) * (s.zBedProbePoints k - m)
           else 0) := by
        split
        · exact mul_self_nonneg _
        · exact le_refl 0
      simpa [RandomProbePointSet.validZSqDevSum] using add_nonneg ih hstep

/-- C5 (amended): when all of the first `n ≥ 1` records are valid, the
mean appended by `ReportProbeHeights` is the mean of the valid Z values,
and the appended deviation `sqrt(max(E[z^2] - E[z]^2, 0))` is their
population standard deviation. -/
theorem reportProbeHeights_allValid_stats (s : RandomProbePointSet)
    (n : Nat) (hn : 1 ≤ n) (hv : ∀ i, i < n → s.validPoint i = true) :
    s.reportedMean n = s.validZMean n ∧
      Real.sqrt ((s.reportedRadicand n : ℚ) : ℝ) =
        Real.sqrt
          (((s.validZSqDevSum (s.validZMean n) n / (s.validCount n : ℚ) :
            ℚ)) : ℝ) := by
  have hc : s.validCount n = n := validCount_all s n hv
  have hne : ((n : ℚ)) ≠ 0 := Nat.cast_ne_zero.mpr (by omega)
  have hmean : s.reportedMean n = s.validZMean n := by
    unfold RandomProbePointSet.reportedMean RandomProbePointSet.validZMean
    rw [hc]
  have hkey : s.reportSumOfSquares n / (n : ℚ) -
      s.reportedMean n * s.reportedMean n =
      s.validZSqDevSum (s.validZMean n) n / (s.validCount n : ℚ) := by
    rw [validZSqDevSum_expand, hc, ← hmean]
    unfold RandomProbePointSet.reportedMean
    field_simp
    ring
  have hpos : (0 : ℚ) ≤
      s.validZSqDevSum (s.validZMean n) n / (s.validCount n : ℚ) :=
    div_nonneg (validZSqDevSum_nonneg s _ n) (by positivity)
  have hrad : s.reportedRadicand n =
      s.validZSqDevSum (s.validZMean n) n / (s.validCount n : ℚ) := by
    unfold RandomProbePointSet.reportedRadicand
    rw [hkey, max_eq_left hpos]
  exact ⟨hmean, by rw [hrad]⟩

/-- A store with three valid probe points whose Z values are 1, 2, 3. -/
def statsStore : RandomProbePointSet :=
  (((((freshStore.SetXYBedProbePoint 0 0 0).SetXYBedProbePoint 1 1 1
    ).SetXYBedProbePoint 2 2 2).SetZBedProbePoint 0 1 false false
    ).SetZBedProbePoint 1 2 false false).SetZBedProbePoint 2 3 false false

/-- Witness for the amended C5, on three valid Z values {1, 2, 3}: the
reported mean is 2 and the radicand of the reported deviation is 2/3, so
the deviation is `sqrt(2/3)`. -/
theorem reportProbeHeights_allValid_stats_witness :
    (1 ≤ 3 ∧ (∀ i, i < 3 → statsStore.validPoint i = true)) ∧
      (statsStore.reportedMean 3 = statsStore.validZMean 3 ∧
        Real.sqrt ((statsStore.reportedRadicand 3 : ℚ) : ℝ) =
          Real.sqrt
            (((statsStore.validZSqDevSum (statsStore.validZMean 3) 3 /
              (statsStore.validCount 3 : ℚ) : ℚ)) : ℝ)) ∧
      statsStore.reportedMean 3 = 2 ∧
      statsStore.reportedRadicand 3 = 2 / 3 := by
  have hv : ∀ i, i < 3 → statsStore.validPoint i = true := by decide
  refine ⟨⟨by norm_num, hv⟩,
    reportProbeHeights_allValid_stats statsStore 3 (by norm_num) hv, ?_, ?_⟩
  · norm_num [statsStore, freshStore, RandomProbePointSet.init,
      RandomProbePointSet.SetXYBedProbePoint,
      RandomProbePointSet.SetZBedProbePoint,
      RandomProbePointSet.reportedMean, RandomProbePointSet.reportSum,
      RandomProbePointSet.validPoint, PointStatus.unset]
  · norm_num [statsStore, freshStore, RandomProbePointSet.init,
      RandomProbePointSet.SetXYBedProbePoint,
      RandomProbePointSet.SetZBedProbePoint,
      RandomProbePointSet.reportedRadicand,
      RandomProbePointSet.reportedMean, RandomProbePointSet.reportSum,
      RandomProbePointSet.reportSumOfSquares,
      RandomProbePointSet.validPoint, PointStatus.unset]

/-- A store in which point 0 is a valid measurement with Z = 2 and point 1
was never probed. -/
def partialStore : RandomProbePointSet :=
  (freshStore.SetXYBedProbePoint 0 3 4).SetZBedProbePoint 0 2 false false

/-- Counterexample to C5 as stated: with one valid record (Z = 2) among
the first two, `ReportProbeHeights 2` reports mean 1 (it divides the sum
of the valid Z values by `numPoints`), while the mean of the valid Z
values is 2. -/
theorem reportProbeHeights_mean_cex :
    partialStore.reportedMean 2 = 1 ∧ partialStore.validZMean 2 = 2 ∧
      ¬partialStore.reportedMean 2 = partialStore.validZMean 2 := by
  have h1 : partialStore.reportedMean 2 = 1 := by
    norm_num [partialStore, freshStore, RandomProbePointSet.init,
      RandomProbePointSet.SetXYBedProbePoint,
      RandomProbePointSet.SetZBedProbePoint,
      RandomProbePointSet.reportedMean, RandomProbePointSet.reportSum,
      RandomProbePointSet.validPoint, PointStatus.unset]
  have h2 : partialStore.validZMean 2 = 2 := by
    norm_num [partialStore, freshStore, RandomProbePointSet.init,
      RandomProbePointSet.SetXYBedProbePoint,
      RandomProbePointSet.SetZBedProbePoint,
      RandomProbePointSet.validZMean, RandomProbePointSet.reportSum,
      RandomProbePointSet.validCount, RandomProbePointSet.validPoint,
      PointStatus.unset]
  refine ⟨h1, h2, ?_⟩
  rw [h1, h2]
  norm_num

/-! ### The fitted point count is always 0, 3 or 4 -/

/-- C9: in every reachable state, `numBedCompensationPoints` is 0, 3 or 4
(it starts at 0 and only a successful `SetProbedBedEquation` writes it,
with 3 or 4); consequently, whenever it is neither 3 nor 4 it is 0 and
`GetInterpolatedHeightError` takes the default branch returning 0. -/
theorem numBedCompensationPoints_invariant (s : RandomProbePointSet)
    (x y : ℚ) (h : Reachable s) :
    (s.numBedCompensationPoints = 0 ∨ s.numBedCompensationPoints = 3 ∨
      s.numBedCompensationPoints = 4) ∧
      (s.numBedCompensationPoints ≠ 3 → s.numBedCompensationPoints ≠ 4 →
        s.numBedCompensationPoints = 0 ∧
          s.GetInterpolatedHeightError x y = 0) := by
  have htri : s.numBedCompensationPoints = 0 ∨
      s.numBedCompensationPoints = 3 ∨ s.numBedCompensationPoints = 4 := by
    induction h with
    | init xs ys aX0 aY0 aC0 xR0 yR0 => exact Or.inl rfl
    | setXY s i xv yv h ih =>
        simpa [RandomProbePointSet.SetXYBedProbePoint] using ih
    | setZ s i zv c e h ih =>
        simpa [RandomProbePointSet.SetZBedProbePoint] using ih
    | clear s h ih =>
        simpa [RandomProbePointSet.ClearProbeHeights] using ih
    | fit s n h ih =>
        by_cases hg : s.GoodProbePointOrdering n = true
        · by_cases h3 : n = 3
          · subst h3
            simp [RandomProbePointSet.SetProbedBedEquation, hg]
          · by_cases h4 : n = 4
            · subst h4
              simp [RandomProbePointSet.SetProbedBedEquation, hg, h3]
            · simpa [RandomProbePointSet.SetProbedBedEquation, hg, h3, h4]
                using ih
        · simpa [RandomProbePointSet.SetProbedBedEquation, hg] using ih
  refine ⟨htri, fun h3 h4 => ?_⟩
  have h0 : s.numBedCompensationPoints = 0 := by
    rcases htri with h' | h' | h' <;> first | exact h' | contradiction
  exact ⟨h0, by
    simp [RandomProbePointSet.GetInterpolatedHeightError, h3, h4]⟩

/-- Witness for C9: a freshly constructed store is reachable, its point
count is 0 (neither 3 nor 4), and the height query returns 0. -/
theorem numBedCompensationPoints_invariant_witness :
    Reachable freshStore ∧ freshStore.numBedCompensationPoints = 0 ∧
      freshStore.GetInterpolatedHeightError 5 7 = 0 := by
  have hr : Reachable freshStore := Reachable.init _ _ _ _ _ _ _
  exact ⟨hr,
    (numBedCompensationPoints_invariant freshStore 5 7 hr).2
      (by decide) (by decide)⟩
